import Mathlib

/-!
Verification of the CHSH winning-probability estimator from the
CERN Quantum Computing Course notebooks (`4.-CHSH_CERN.ipynb`).

The estimator consists of two Python functions:

* `CHSH_circuit(x, y, a0, a1, b0, b1)` builds a two-qubit circuit:
  Hadamard on qubit 0, CNOT 0→1, a `ry` rotation on qubit 0 whose angle
  is `a0` if `x == 0` else `a1`, a `ry` rotation on qubit 1 whose angle
  is `b0` if `y == 0` else `b1`, and a measurement of both qubits.
* `winning_probability(backend, shots, a0, a1, b0, b1)` builds the four
  circuits for (x,y) in {(0,0),(0,1),(1,0),(1,1)}, executes them as one
  batch on the backend, adds the counts of the keys `"00"` and `"11"`
  (when present) for the first three circuits and of `"01"` and `"10"`
  (when present) for the fourth, and returns `total / (4 * shots)`.

The embedding below is a direct shallow translation: circuits are gate
lists, a backend is a deterministic function from circuit and shot count
to an outcome-count mapping (a partial map from outcome strings to
natural numbers, mirroring the Python dict returned by `get_counts`),
and the Python float division is modelled over `ℚ`, with the
`ZeroDivisionError` that `total/(4*shots)` raises at `shots = 0`
modelled by `Except.error`.
-/

namespace CHSH

/-- A gate of the two-qubit circuits built by the notebook: Hadamard,
controlled-NOT, `ry` rotation by an angle from `α`, or measurement of a
qubit into a classical bit. -/
inductive Gate (α : Type) where
  | h : Nat → Gate α
  | cx : Nat → Nat → Gate α
  | ry : α → Nat → Gate α
  | measure : Nat → Nat → Gate α
deriving DecidableEq

/-- A circuit descriptor is the list of gates appended to the circuit,
in program order. -/
abbrev Circuit (α : Type) := List (Gate α)

/-- Translation of the notebook function `CHSH_circuit`: Bell-pair
preparation (`h 0`, `cx 0 1`), Alice's rotation on qubit 0 (`a0` if
`x == 0` else `a1`), Bob's rotation on qubit 1 (`b0` if `y == 0` else
`b1`), then `measure(range(2), range(2))`. -/
def CHSH_circuit {α : Type} (x y : Nat) (a0 a1 b0 b1 : α) : Circuit α :=
  [Gate.h 0, Gate.cx 0 1]
    ++ (if x = 0 then [Gate.ry a0 0] else [Gate.ry a1 0])
    ++ (if y = 0 then [Gate.ry b0 1] else [Gate.ry b1 1])
    ++ [Gate.measure 0 0, Gate.measure 1 1]

/-- An outcome-count mapping, as returned by `get_counts`: a Python dict
from 2-bit outcome strings to integer counts, modelled as a partial map. -/
abbrev Counts := String → Option Nat

/-- The notebook pattern `if(key in counts): total += counts[key]`:
add the count stored under `key` when the key is present, otherwise
leave the total unchanged. -/
def addIfPresent (counts : Counts) (key : String) (total : Nat) : Nat :=
  match counts key with
  | some n => total + n
  | none => total

/-- The count stored under a key, with an absent key reading as zero. -/
def countOf (counts : Counts) (key : String) : Nat :=
  (counts key).getD 0

/-- A deterministic execution backend: the counts it returns are a
function of the submitted circuit and the shot count alone. -/
structure DetBackend (α : Type) where
  run : Circuit α → Nat → Counts

/-- The notebook call `execute(circuits, backend=backend, shots=shots)`
followed by `job.result().get_counts(qc)`: submitting a batch to a
deterministic backend yields, for each circuit, the counts the backend
produces for that circuit at the given shot count. -/
def execute {α : Type} (circuits : List (Circuit α)) (backend : DetBackend α)
    (shots : Nat) : Circuit α → Counts :=
  fun qc => backend.run qc shots

/-- Translation of the notebook function `winning_probability`:
build the four circuits, execute them as one batch, add the `"00"` and
`"11"` counts of the first three circuits (`circuits[0:3]`) and the
`"01"` and `"10"` counts of the fourth, and return `total / (4*shots)`.
The Python division raises `ZeroDivisionError` when `4*shots == 0`;
otherwise the quotient is modelled exactly over `ℚ`. -/
def winning_probability {α : Type} (backend : DetBackend α) (shots : Nat)
    (a0 a1 b0 b1 : α) : Except String ℚ :=
  let circuits := [CHSH_circuit 0 0 a0 a1 b0 b1, CHSH_circuit 0 1 a0 a1 b0 b1,
                   CHSH_circuit 1 0 a0 a1 b0 b1, CHSH_circuit 1 1 a0 a1 b0 b1]
  let job := execute circuits backend shots
  let total :=
    (circuits.take 3).foldl
      (fun total qc =>
        let counts := job qc
        addIfPresent counts "11" (addIfPresent counts "00" total))
      0
  let counts := job (CHSH_circuit 1 1 a0 a1 b0 b1)
  let total := addIfPresent counts "10" (addIfPresent counts "01" total)
  if 4 * shots = 0 then Except.error "ZeroDivisionError"
  else Except.ok ((total : ℚ) / ((4 : ℚ) * (shots : ℚ)))

/-- The separate-requests variant used to state the batching contract:
each of the four circuits is submitted in its own single-circuit
execution request, with the same shot count, and the totals are
accumulated exactly as in `winning_probability`. -/
def winning_probability_separate {α : Type} (backend : DetBackend α) (shots : Nat)
    (a0 a1 b0 b1 : α) : Except String ℚ :=
  let c0 := CHSH_circuit 0 0 a0 a1 b0 b1
  let c1 := CHSH_circuit 0 1 a0 a1 b0 b1
  let c2 := CHSH_circuit 1 0 a0 a1 b0 b1
  let c3 := CHSH_circuit 1 1 a0 a1 b0 b1
  let counts0 := execute [c0] backend shots c0
  let counts1 := execute [c1] backend shots c1
  let counts2 := execute [c2] backend shots c2
  let counts3 := execute [c3] backend shots c3
  let total := addIfPresent counts0 "11" (addIfPresent counts0 "00" 0)
  let total := addIfPresent counts1 "11" (addIfPresent counts1 "00" total)
  let total := addIfPresent counts2 "11" (addIfPresent counts2 "00" total)
  let total := addIfPresent counts3 "10" (addIfPresent counts3 "01" total)
  if 4 * shots = 0 then Except.error "ZeroDivisionError"
  else Except.ok ((total : ℚ) / ((4 : ℚ) * (shots : ℚ)))

/-- The winning total as the specification words it: the `"00"` and
`"11"` counts of the three descriptors with (x,y) in
{(0,0),(0,1),(1,0)}, plus the `"01"` and `"10"` counts of the (1,1)
descriptor, an absent key contributing zero. -/
def spec_win_total {α : Type} (backend : DetBackend α) (shots : Nat)
    (a0 a1 b0 b1 : α) : Nat :=
  countOf (backend.run (CHSH_circuit 0 0 a0 a1 b0 b1) shots) "00"
    + countOf (backend.run (CHSH_circuit 0 0 a0 a1 b0 b1) shots) "11"
    + countOf (backend.run (CHSH_circuit 0 1 a0 a1 b0 b1) shots) "00"
    + countOf (backend.run (CHSH_circuit 0 1 a0 a1 b0 b1) shots) "11"
    + countOf (backend.run (CHSH_circuit 1 0 a0 a1 b0 b1) shots) "00"
    + countOf (backend.run (CHSH_circuit 1 0 a0 a1 b0 b1) shots) "11"
    + countOf (backend.run (CHSH_circuit 1 1 a0 a1 b0 b1) shots) "01"
    + countOf (backend.run (CHSH_circuit 1 1 a0 a1 b0 b1) shots) "10"

theorem addIfPresent_eq (counts : Counts) (key : String) (total : Nat) :
    addIfPresent counts key total = total + countOf counts key := by
  unfold addIfPresent countOf
  cases counts key <;> simp

/-- Normal form of `winning_probability` for a positive shot count: the
call succeeds and returns the spec-side winning total over `4 * shots`. -/
theorem winning_probability_ok {α : Type} (backend : DetBackend α) (shots : Nat)
    (a0 a1 b0 b1 : α) (hpos : 0 < shots) :
    winning_probability backend shots a0 a1 b0 b1 =
      Except.ok ((spec_win_total backend shots a0 a1 b0 b1 : ℚ)
        / ((4 : ℚ) * (shots : ℚ))) := by
  unfold winning_probability spec_win_total execute
  simp only [List.take, List.foldl, addIfPresent_eq]
  rw [if_neg (by omega)]
  ring_nf

/-- Claim C1: for every backend response and every (positive, per the
data model) shot count, `winning_probability` returns exactly the sum of
the `"00"` and `"11"` counts of the three descriptors with (x,y) in
{(0,0),(0,1),(1,0)} plus the `"01"` and `"10"` counts of the (1,1)
descriptor, divided by `4 * shots`, an absent key contributing zero. -/
theorem C1_win_probability_formula {α : Type} (backend : DetBackend α)
    (shots : Nat) (a0 a1 b0 b1 : α) (hpos : 0 < shots) :
    winning_probability backend shots a0 a1 b0 b1 =
      Except.ok ((spec_win_total backend shots a0 a1 b0 b1 : ℚ)
        / ((4 : ℚ) * (shots : ℚ))) :=
  winning_probability_ok backend shots a0 a1 b0 b1 hpos

/-- A concrete backend used to witness claims: every circuit gets the
counts mapping assigning 3 to `"00"`, 4 to `"11"`, 5 to `"01"`, with
`"10"` and every other key absent. -/
def sampleBackend : DetBackend ℚ :=
  ⟨fun _ _ => fun key =>
    if key = "00" then some 3 else if key = "11" then some 4
    else if key = "01" then some 5 else none⟩

theorem C1_win_probability_formula_witness :
    winning_probability sampleBackend 2 0 1 2 3 =
      Except.ok ((spec_win_total sampleBackend 2 0 1 2 3 : ℚ)
        / ((4 : ℚ) * ((2 : Nat) : ℚ))) :=
  C1_win_probability_formula sampleBackend 2 0 1 2 3 (by decide)

/-- Claim C2: for every x, y and all real angles, `CHSH_circuit`
produces the descriptor: Hadamard on qubit 0, CNOT 0→1, Alice's `ry`
rotation by `a0` if `x = 0` else `a1` on qubit 0, Bob's `ry` rotation by
`b0` if `y = 0` else `b1` on qubit 1, then measurement of both qubits. -/
theorem C2_circuit_structure (x y : Nat) (a0 a1 b0 b1 : ℝ) :
    CHSH_circuit x y a0 a1 b0 b1 =
      [Gate.h 0, Gate.cx 0 1,
       Gate.ry (if x = 0 then a0 else a1) 0,
       Gate.ry (if y = 0 then b0 else b1) 1,
       Gate.measure 0 0, Gate.measure 1 1] := by
  unfold CHSH_circuit
  by_cases hx : x = 0 <;> by_cases hy : y = 0 <;> simp [hx, hy]

/-- Claim C4, counterexample: calling `CHSH_circuit` with the invalid
selectors x = 2, y = 3 does not fail; it returns the same ordinary
descriptor as the valid call with x = 1, y = 1, so invalid selector
bits are processed rather than rejected. -/
theorem C4_counterexample :
    CHSH_circuit 2 3 (0 : ℚ) 1 2 (-2) = CHSH_circuit 1 1 (0 : ℚ) 1 2 (-2) := by
  decide

/-- Claim C4, amended: `CHSH_circuit` performs no validation of the
selector bits; any x outside {0,1} is treated exactly like x = 1
(selecting angle `a1`), and likewise any y outside {0,1} selects `b1`,
with the descriptor constructed normally and no error raised. -/
theorem C4_no_validation {α : Type} (x y : Nat) (a0 a1 b0 b1 : α)
    (hx : x ≠ 0) (hy : y ≠ 0) :
    CHSH_circuit x y a0 a1 b0 b1 = CHSH_circuit 1 1 a0 a1 b0 b1 := by
  unfold CHSH_circuit
  simp [hx, hy]

theorem C4_no_validation_witness :
    CHSH_circuit 5 7 (0 : ℚ) 1 2 (-2) = CHSH_circuit 1 1 (0 : ℚ) 1 2 (-2) :=
  C4_no_validation 5 7 0 1 2 (-2) (by decide) (by decide)

/-- Claim C7: under a deterministic backend (counts a function of the
circuit and the shot count alone), submitting the four descriptors as
one batched request yields the same aggregate winning probability as
four independent single-descriptor requests with the same shot count. -/
theorem C7_batching_equivalence {α : Type} (backend : DetBackend α)
    (shots : Nat) (a0 a1 b0 b1 : α) :
    winning_probability backend shots a0 a1 b0 b1 =
      winning_probability_separate backend shots a0 a1 b0 b1 := by
  rfl

/-- The angles of the `ry` rotation gates of a descriptor, with the
qubit each is applied to: the "rotation choices" of the two parties. -/
def rotationChoices {α : Type} (circ : Circuit α) : List (α × Nat) :=
  circ.filterMap fun g =>
    match g with
    | Gate.ry angle q => some (angle, q)
    | _ => none

/-- Claim C8: for valid selectors, `CHSH_circuit` is deterministic: two
calls with identical inputs produce identical descriptors, and in
particular identical rotation choices (same angle on each party's
qubit). In this embedding the builder is a pure function, so equal
inputs give equal outputs structurally. -/
theorem C8_deterministic {α : Type} (x y x' y' : Nat)
    (a0 a1 b0 b1 a0' a1' b0' b1' : α)
    (hv : (x = 0 ∨ x = 1) ∧ (y = 0 ∨ y = 1))
    (hx : x = x') (hy : y = y') (ha0 : a0 = a0') (ha1 : a1 = a1')
    (hb0 : b0 = b0') (hb1 : b1 = b1') :
    CHSH_circuit x y a0 a1 b0 b1 = CHSH_circuit x' y' a0' a1' b0' b1' ∧
      rotationChoices (CHSH_circuit x y a0 a1 b0 b1) =
        rotationChoices (CHSH_circuit x' y' a0' a1' b0' b1') := by
  subst hx hy ha0 ha1 hb0 hb1
  exact ⟨rfl, rfl⟩

theorem C8_deterministic_witness :
    CHSH_circuit 0 1 (0 : ℚ) 1 2 (-2) = CHSH_circuit 0 1 (0 : ℚ) 1 2 (-2) ∧
      rotationChoices (CHSH_circuit 0 1 (0 : ℚ) 1 2 (-2)) =
        rotationChoices (CHSH_circuit 0 1 (0 : ℚ) 1 2 (-2)) :=
  C8_deterministic 0 1 0 1 (0 : ℚ) 1 2 (-2) 0 1 2 (-2)
    ⟨Or.inl rfl, Or.inr rfl⟩ rfl rfl rfl rfl rfl rfl

/-- A backend whose counts exceed the shot count: every circuit gets 8
occurrences of `"00"` and nothing else. Used to exhibit a result above 1. -/
def bigBackend : DetBackend ℚ :=
  ⟨fun _ _ => fun key => if key = "00" then some 8 else none⟩

/-- Claim C3, counterexample: at `shots = 0` the code raises
`ZeroDivisionError` instead of returning a value, and at `shots = 1`
with a backend reporting 8 counts of `"00"` per descriptor the returned
value is 6, which exceeds 1; so the output is not always in [0,1] for
every non-negative shot count and backend response. -/
theorem C3_counterexample :
    winning_probability bigBackend 0 0 1 2 3 = Except.error "ZeroDivisionError" ∧
      winning_probability bigBackend 1 0 1 2 3 = Except.ok 6 ∧ ¬((6 : ℚ) ≤ 1) := by
  refine ⟨rfl, ?_, by norm_num⟩
  rw [winning_probability_ok bigBackend 1 0 1 2 3 (by decide)]
  simp [spec_win_total, bigBackend, countOf]
  norm_num

/-- Claim C3, amended: at `shots = 0` the computation fails with a
division-by-zero error; for every positive shot count the result is
non-negative, and it is at most 1 whenever each descriptor's two
winning-key counts total at most `shots` (as they do for any counts
actually produced by `shots` executions). -/
theorem C3_range {α : Type} (backend : DetBackend α) (shots : Nat)
    (a0 a1 b0 b1 : α) (hpos : 0 < shots)
    (hbound : ∀ qc,
      countOf (backend.run qc shots) "00" + countOf (backend.run qc shots) "11" ≤ shots ∧
      countOf (backend.run qc shots) "01" + countOf (backend.run qc shots) "10" ≤ shots) :
    winning_probability backend 0 a0 a1 b0 b1 = Except.error "ZeroDivisionError" ∧
      ∃ q, winning_probability backend shots a0 a1 b0 b1 = Except.ok q ∧
        0 ≤ q ∧ q ≤ 1 := by
  have h1 := hbound (CHSH_circuit 0 0 a0 a1 b0 b1)
  have h2 := hbound (CHSH_circuit 0 1 a0 a1 b0 b1)
  have h3 := hbound (CHSH_circuit 1 0 a0 a1 b0 b1)
  have h4 := hbound (CHSH_circuit 1 1 a0 a1 b0 b1)
  have htot : spec_win_total backend shots a0 a1 b0 b1 ≤ 4 * shots := by
    unfold spec_win_total
    omega
  have hs : (0 : ℚ) < (4 : ℚ) * (shots : ℚ) := by
    have hq : (0 : ℚ) < (shots : ℚ) := by exact_mod_cast hpos
    linarith
  refine ⟨by simp [winning_probability],
    ⟨_, winning_probability_ok backend shots a0 a1 b0 b1 hpos, ?_, ?_⟩⟩
  · positivity
  · rw [div_le_one hs]
    calc (spec_win_total backend shots a0 a1 b0 b1 : ℚ)
        ≤ ((4 * shots : Nat) : ℚ) := by exact_mod_cast htot
      _ = (4 : ℚ) * (shots : ℚ) := by push_cast; ring

theorem C3_range_witness :
    winning_probability sampleBackend 0 0 1 2 3 = Except.error "ZeroDivisionError" ∧
      ∃ q, winning_probability sampleBackend 9 0 1 2 3 = Except.ok q ∧
        0 ≤ q ∧ q ≤ 1 :=
  C3_range sampleBackend 9 0 1 2 3 (by decide)
    (fun _ => by simp [sampleBackend, countOf])

/-- Claim C5: if every descriptor's counts mapping lacks the `"01"` and
`"10"` keys (a backend reporting only `"00"`/`"11"` outcomes), the call
succeeds, the (1,1) descriptor contributes zero wins, and the result is
the `"00"`/`"11"` total of the first three descriptors over `4*shots`. -/
theorem C5_absent_keys {α : Type} (backend : DetBackend α) (shots : Nat)
    (a0 a1 b0 b1 : α) (hpos : 0 < shots)
    (habs : ∀ qc, backend.run qc shots "01" = none ∧ backend.run qc shots "10" = none) :
    winning_probability backend shots a0 a1 b0 b1 =
      Except.ok (((countOf (backend.run (CHSH_circuit 0 0 a0 a1 b0 b1) shots) "00"
        + countOf (backend.run (CHSH_circuit 0 0 a0 a1 b0 b1) shots) "11"
        + countOf (backend.run (CHSH_circuit 0 1 a0 a1 b0 b1) shots) "00"
        + countOf (backend.run (CHSH_circuit 0 1 a0 a1 b0 b1) shots) "11"
        + countOf (backend.run (CHSH_circuit 1 0 a0 a1 b0 b1) shots) "00"
        + countOf (backend.run (CHSH_circuit 1 0 a0 a1 b0 b1) shots) "11" : Nat) : ℚ)
        / ((4 : ℚ) * (shots : ℚ))) := by
  have h4 := habs (CHSH_circuit 1 1 a0 a1 b0 b1)
  rw [winning_probability_ok backend shots a0 a1 b0 b1 hpos]
  have : spec_win_total backend shots a0 a1 b0 b1 =
      countOf (backend.run (CHSH_circuit 0 0 a0 a1 b0 b1) shots) "00"
        + countOf (backend.run (CHSH_circuit 0 0 a0 a1 b0 b1) shots) "11"
        + countOf (backend.run (CHSH_circuit 0 1 a0 a1 b0 b1) shots) "00"
        + countOf (backend.run (CHSH_circuit 0 1 a0 a1 b0 b1) shots) "11"
        + countOf (backend.run (CHSH_circuit 1 0 a0 a1 b0 b1) shots) "00"
        + countOf (backend.run (CHSH_circuit 1 0 a0 a1 b0 b1) shots) "11" := by
    unfold spec_win_total countOf
    rw [h4.1, h4.2]
    simp
  rw [this]

/-- A backend reporting only the keys `"00"` and `"11"` on every
descriptor, including the (1,1) one. -/
def eqOnlyBackend : DetBackend ℚ :=
  ⟨fun _ _ => fun key =>
    if key = "00" then some 10 else if key = "11" then some 20 else none⟩

theorem C5_absent_keys_witness :
    winning_probability eqOnlyBackend 64 0 1 2 (-2) =
      Except.ok (((countOf (eqOnlyBackend.run (CHSH_circuit 0 0 0 1 2 (-2)) 64) "00"
        + countOf (eqOnlyBackend.run (CHSH_circuit 0 0 0 1 2 (-2)) 64) "11"
        + countOf (eqOnlyBackend.run (CHSH_circuit 0 1 0 1 2 (-2)) 64) "00"
        + countOf (eqOnlyBackend.run (CHSH_circuit 0 1 0 1 2 (-2)) 64) "11"
        + countOf (eqOnlyBackend.run (CHSH_circuit 1 0 0 1 2 (-2)) 64) "00"
        + countOf (eqOnlyBackend.run (CHSH_circuit 1 0 0 1 2 (-2)) 64) "11" : Nat) : ℚ)
        / ((4 : ℚ) * ((64 : Nat) : ℚ))) :=
  C5_absent_keys eqOnlyBackend 64 0 1 2 (-2) (by decide) (fun _ => ⟨rfl, rfl⟩)

/-- Claim C6: if the backend reports zero counts for every outcome key
on all four descriptors and the shot count is positive, the call
succeeds and returns exactly 0. -/
theorem C6_all_zero {α : Type} (backend : DetBackend α) (shots : Nat)
    (a0 a1 b0 b1 : α) (hpos : 0 < shots)
    (hz : ∀ qc key, countOf (backend.run qc shots) key = 0) :
    winning_probability backend shots a0 a1 b0 b1 = Except.ok 0 := by
  rw [winning_probability_ok backend shots a0 a1 b0 b1 hpos]
  have : spec_win_total backend shots a0 a1 b0 b1 = 0 := by
    unfold spec_win_total
    simp [hz]
  rw [this]
  simp

/-- A backend reporting an explicit count of zero for every key. -/
def zeroBackend : DetBackend ℚ := ⟨fun _ _ => fun _ => some 0⟩

theorem C6_all_zero_witness :
    winning_probability zeroBackend 5 0 1 2 (-2) = Except.ok 0 :=
  C6_all_zero zeroBackend 5 0 1 2 (-2) (by decide) (fun _ _ => rfl)

/-- The theoretical counts for the three "outputs equal" descriptors at
the optimal angles, integer-rounded, for 8192 shots: each winning key
carries round(8192 * cos^2(pi/8) / 2) = round(3496.15) = 3496, each
losing key round(8192 * sin^2(pi/8) / 2) = round(599.84) = 600. -/
def th_counts_eq : Counts := fun key =>
  if key = "00" then some 3496 else if key = "11" then some 3496
  else if key = "01" then some 600 else if key = "10" then some 600 else none

/-- The theoretical counts for the (1,1) "outputs differ" descriptor:
the winning keys are `"01"` and `"10"` there. -/
def th_counts_diff : Counts := fun key =>
  if key = "01" then some 3496 else if key = "10" then some 3496
  else if key = "00" then some 600 else if key = "11" then some 600 else none

/-- A synthetic backend stub returning exactly the integer-rounded
theoretical count distribution per descriptor. The angles are the
stand-ins 0, 1, 2, -2 for the defaults 0, pi/2, pi/4, -pi/4: the
estimator only selects angles and never computes with their values, so
the counts arithmetic is unchanged by the stand-ins. -/
def th_backend : DetBackend ℚ :=
  ⟨fun qc _ =>
    if qc = CHSH_circuit 1 1 0 1 2 (-2) then th_counts_diff else th_counts_eq⟩

/-- Claim C9, counterexample: fed the integer-rounded theoretical
distribution at shots = 8192, the estimator returns exactly
(4 * 6992) / 32768 = 437/512 = 0.853515625, which differs from 0.8536
by 27/320000 = 0.000084375, far more than 1e-9. -/
theorem C9_counterexample :
    winning_probability th_backend 8192 0 1 2 (-2) = Except.ok (437 / 512) ∧
      ¬(|(437 / 512 : ℚ) - 8536 / 10000| ≤ 1 / 1000000000) := by
  constructor
  · rw [winning_probability_ok th_backend 8192 0 1 2 (-2) (by decide)]
    have ht : spec_win_total th_backend 8192 0 1 2 (-2) = 27968 := by decide
    rw [ht]
    norm_num
  · rw [abs_sub_comm, abs_of_nonneg (by norm_num)]
    norm_num

/-- Claim C9, amended: fed a synthetic backend stub returning exactly
the integer-rounded theoretical count distribution for shots = 8192,
the estimator returns exactly 437/512 = 0.853515625, which is within
1e-4 (not 1e-9) of 0.8536. -/
theorem C9_regression_target :
    winning_probability th_backend 8192 0 1 2 (-2) = Except.ok (437 / 512) ∧
      |(437 / 512 : ℚ) - 8536 / 10000| ≤ 1 / 10000 := by
  constructor
  · rw [winning_probability_ok th_backend 8192 0 1 2 (-2) (by decide)]
    have ht : spec_win_total th_backend 8192 0 1 2 (-2) = 27968 := by decide
    rw [ht]
    norm_num
  · rw [abs_sub_comm, abs_of_nonneg (by norm_num)]
    norm_num

/-- Claim C10: the aggregate result depends only on each descriptor's
counts at its two winning keys; two backends that agree on those eight
entries give identical results, whatever they report elsewhere. -/
theorem C10_win_keys_only {α : Type} (bk1 bk2 : DetBackend α) (shots : Nat)
    (a0 a1 b0 b1 : α)
    (e1 : bk1.run (CHSH_circuit 0 0 a0 a1 b0 b1) shots "00"
        = bk2.run (CHSH_circuit 0 0 a0 a1 b0 b1) shots "00")
    (e2 : bk1.run (CHSH_circuit 0 0 a0 a1 b0 b1) shots "11"
        = bk2.run (CHSH_circuit 0 0 a0 a1 b0 b1) shots "11")
    (e3 : bk1.run (CHSH_circuit 0 1 a0 a1 b0 b1) shots "00"
        = bk2.run (CHSH_circuit 0 1 a0 a1 b0 b1) shots "00")
    (e4 : bk1.run (CHSH_circuit 0 1 a0 a1 b0 b1) shots "11"
        = bk2.run (CHSH_circuit 0 1 a0 a1 b0 b1) shots "11")
    (e5 : bk1.run (CHSH_circuit 1 0 a0 a1 b0 b1) shots "00"
        = bk2.run (CHSH_circuit 1 0 a0 a1 b0 b1) shots "00")
    (e6 : bk1.run (CHSH_circuit 1 0 a0 a1 b0 b1) shots "11"
        = bk2.run (CHSH_circuit 1 0 a0 a1 b0 b1) shots "11")
    (e7 : bk1.run (CHSH_circuit 1 1 a0 a1 b0 b1) shots "01"
        = bk2.run (CHSH_circuit 1 1 a0 a1 b0 b1) shots "01")
    (e8 : bk1.run (CHSH_circuit 1 1 a0 a1 b0 b1) shots "10"
        = bk2.run (CHSH_circuit 1 1 a0 a1 b0 b1) shots "10") :
    winning_probability bk1 shots a0 a1 b0 b1 =
      winning_probability bk2 shots a0 a1 b0 b1 := by
  unfold winning_probability execute
  simp only [List.take, List.foldl, addIfPresent_eq, countOf]
  rw [e1, e2, e3, e4, e5, e6, e7, e8]

/-- A backend identical to `sampleBackend` except that it also reports
a count under the malformed extra key `"zz"`. Its winning-key entries
match `sampleBackend` on every circuit. -/
def junkBackend : DetBackend ℚ :=
  ⟨fun _ _ => fun key =>
    if key = "00" then some 3 else if key = "11" then some 4
    else if key = "01" then some 5 else if key = "zz" then some 99 else none⟩

theorem C10_win_keys_only_witness :
    winning_probability sampleBackend 2 0 1 2 3 =
      winning_probability junkBackend 2 0 1 2 3 :=
  C10_win_keys_only sampleBackend junkBackend 2 0 1 2 3
    rfl rfl rfl rfl rfl rfl rfl rfl

end CHSH
